import Mathlib

/-!
Shallow embedding of the flow network transport core
(src/rust/src/flow/mod.rs, src/rust/src/services/mod.rs,
src/rust/src/services/connection_handler.rs).

Pure dispatch logic is translated directly from the source.  Modules of the
repository that are referenced by the sources but whose files are absent
(flow/uid.rs, flow/frame.rs, flow/connection.rs, flow/file_identifier.rs,
the Flow/FlowMessage types and the ping_request / network_test handlers)
are modelled from the specification; each such definition says so in its
doc comment.  Stateful loops (sender, receiver, listener) are embedded as
executable functions over explicit event schedules; tokio semaphores and
mpsc channels are modelled by explicit state.
-/

namespace Fdb

/-- Error values.  The Rust code uses a boxed dynamic error
(type Error = Box of dyn std error); we model the finitely many error
causes the embedded code paths can produce. -/
inductive FlowError
  /-- peek_file_identifier / validate on a payload shorter than 8 bytes. -/
  | frameTooShort
  /-- a fatal frame-codec error reported by read_frame. -/
  | codec
  /-- mpsc send error: the receiving half of the channel was dropped. -/
  | channelClosed
  /-- tokio mpsc try_recv Disconnected: channel closed and empty. -/
  | tryRecvDisconnected
  /-- an error produced by a handler or router future (opaque code). -/
  | handler (code : Nat)
  /-- a payload parse error (flatbuffers root_as_fake_root and similar). -/
  | parse
  deriving DecidableEq, Repr

/-- UID from flow/uid.rs (file absent from src/; shape fixed by the spec and
by its uses in flow/mod.rs: uid = [first, second], two 64-bit words).
Words are Nats; no arithmetic overflows them in the embedded code. -/
structure UID where
  first : Nat
  second : Nat
  deriving DecidableEq, Repr

/-- Well-known token variants, as matched in flow/mod.rs and
services/mod.rs. -/
inductive WLTOKEN
  | ReservedForTesting
  | PingPacket
  | AuthTenant
  | UnauthorizedEndpoint
  | NetworkTest
  | EndpointNotFound
  deriving DecidableEq, Repr

/-- Modelled from the spec: flow/uid.rs is absent from src/.  A reserved
range of UID values encodes the WLTOKEN variants; the exact bit pattern is
fixed by the wire protocol and not given in the spec, so the reserved range
is modelled as first = wellKnownMarker with second selecting the variant.
No claim depends on the concrete bits, only on the classification. -/
def wellKnownMarker : Nat := 0xFDB00B00

/-- Modelled from the spec: classification of a UID as a well-known token
(uid.rs get_well_known_endpoint, absent from src/).  Classification is
total; UIDs outside the reserved range are ephemeral (none). -/
def UID.get_well_known_endpoint (u : UID) : Option WLTOKEN :=
  if u.first = wellKnownMarker then
    match u.second with
    | 0 => some .ReservedForTesting
    | 1 => some .PingPacket
    | 2 => some .AuthTenant
    | 3 => some .UnauthorizedEndpoint
    | 4 => some .NetworkTest
    | 5 => some .EndpointNotFound
    | _ => none
  else none

/-- Frame from flow/frame.rs (file absent from src/; shape fixed by its
uses: a token and an opaque byte payload).  Bytes are Nats. -/
structure Frame where
  token : UID
  payload : List Nat
  deriving DecidableEq, Repr

/-- Modelled from the spec: frame.rs is absent from src/.  Validation of a
frame; the minimum legal payload length is 8 bytes, shorter payloads are
malformed. -/
def Frame.validate (f : Frame) : Except FlowError Unit :=
  if f.payload.length < 8 then .error .frameTooShort else .ok ()

/-- Modelled from the spec: frame.rs is absent from src/.
peek_file_identifier reads the first 4 payload bytes as a little-endian
file identifier, or reports frame-too-short when the payload length
is below 8. -/
def Frame.peek_file_identifier (f : Frame) : Except FlowError Nat :=
  match f.payload with
  | b0 :: b1 :: b2 :: b3 :: rest =>
      if rest.length < 4 then .error .frameTooShort
      else .ok (b0 + 256 * b1 + 65536 * b2 + 16777216 * b3)
  | _ => .error .frameTooShort

/-- Socket addresses are opaque to the embedded logic; modelled as Nat. -/
abbrev SocketAddr := Nat

/-- Modelled from the spec: the Peer type of the Flow envelope (defined in
the flow module, absent from src/): Local (optional UID) or Remote
(peer socket address). -/
inductive Peer
  | local (u : Option UID)
  | remote (addr : SocketAddr)
  deriving DecidableEq, Repr

/-- Modelled from the spec: the Flow envelope (absent from src/), carrying
dst and src, in the field order used at the construction site in
connection_handler.rs receiver. -/
structure Flow where
  dst : Peer
  src : Peer
  deriving DecidableEq, Repr

/-- Modelled from the spec: FlowMessage (absent from src/): a Flow
envelope, a Frame, plus a cached parsed header (the file identifier). -/
structure FlowMessage where
  flow : Flow
  frame : Frame
  fileIdentifier : Nat
  deriving DecidableEq, Repr

/-- Modelled from the spec: FlowMessage construction (absent from src/).
It caches the parsed header, so it fails exactly when
peek_file_identifier fails; connection_handler.rs receiver propagates
this failure with the question-mark operator. -/
def FlowMessage.new (flow : Flow) (frame : Frame) : Except FlowError FlowMessage :=
  match frame.peek_file_identifier with
  | .error e => .error e
  | .ok fid => .ok ⟨flow, frame, fid⟩

/-- Modelled from the spec: FlowMessage validation (absent from src/),
called by ConnectionHandler handle_req; delegates to the frame minimum
payload length rule. -/
def FlowMessage.validate (m : FlowMessage) : Except FlowError Unit :=
  m.frame.validate

/-- Modelled from the spec: file_identifier.rs is absent from src/.  The
parsed file identifier record carried by FlowRequest. -/
structure ParsedFileIdentifier where
  fileIdentifier : Nat
  deriving DecidableEq, Repr

/-- Modelled from the spec: FileIdentifierNames from_id (absent from
src/); the table maps a 32-bit identifier to a schema name used only for
diagnostics, so the lookup is modelled as total. -/
def from_id (fid : Nat) : Except FlowError ParsedFileIdentifier :=
  .ok ⟨fid⟩

/-- FlowRequest from services/mod.rs lines 19-22. -/
structure FlowRequest where
  frame : Frame
  parsed_file_identifier : ParsedFileIdentifier
  deriving DecidableEq, Repr

/-- FlowResponse from services/mod.rs lines 24-26. -/
structure FlowResponse where
  frame : Frame
  deriving DecidableEq, Repr

/-- The type of the well-known endpoint handlers
(ping_request::handle, network_test::handle).  Their defining files
services/ping_request.rs and services/network_test.rs are absent from
src/, so handle_req below is parametrised over them; the theorems hold
for every instantiation. -/
abbrev Handler := FlowRequest → Except FlowError (Option FlowResponse)

/-- handle_req from services/mod.rs lines 41-65: validate the frame, then
dispatch on the well-known classification of the token.  PingPacket and
ReservedForTesting go to their handlers; any other well-known variant is
logged (println) and resolves to none; an ephemeral token (None arm) is
logged and resolves to none. -/
def handle_req (pingHandle networkTestHandle : Handler) (request : FlowRequest) :
    Except FlowError (Option FlowResponse) :=
  match request.frame.validate with
  | .error e => .error e
  | .ok () =>
    match request.frame.token.get_well_known_endpoint with
    | some .PingPacket => pingHandle request
    | some .ReservedForTesting => networkTestHandle request
    | some _ => .ok none
    | none => .ok none

/-- Holds (as a Bool) when a router result is a reply whose token
classifies as EndpointNotFound: the behaviour the specification describes
for unmatched tokens.  Used to compare handle_req against that
description. -/
def isEndpointNotFoundReply (res : Except FlowError (Option FlowResponse)) : Bool :=
  match res with
  | .ok (some resp) =>
      decide (resp.frame.token.get_well_known_endpoint = some WLTOKEN.EndpointNotFound)
  | _ => false

/-- A handler that resolves every request to none; used to instantiate the
handler parameters at concrete inputs. -/
def trivialHandler : Handler := fun _ => .ok none

/-!
Sender task, connection_handler.rs lines 20-40 (spawn_sender in
services/mod.rs lines 101-125 has the same loop structure).  The sender
owns the ConnectionWriter and the receive half of the per-connection
channel and loops: recv one message, write its frame; then try_recv in a
loop, writing each immediately available frame, flushing and breaking on
Empty, and returning Err on any other try_recv error (Disconnected).
When recv returns None (channel closed and empty) the outer loop exits
with Ok.

The channel is modelled by the schedule the sender observes: a list of
bursts.  Each burst is one message returned by a blocking recv together
with the messages found immediately available by try_recv after it.
Between bursts try_recv observes Empty.  closedDuringDrain = true means
the channel was closed while the final burst was still queued, so the
try_recv that ends the final burst observes Disconnected instead of
Empty; closedDuringDrain = false means the channel is closed (or the
schedule simply ends) while the sender blocks in recv on an empty queue,
which recv reports as None.
-/

/-- One observable action of the sender on the ConnectionWriter. -/
inductive SenderAct
  | write (f : Frame)
  | flush
  deriving DecidableEq, Repr

/-- The inner try_recv loop of sender (connection_handler.rs lines 26-37),
run after the first write of a burst: avail are the immediately available
messages; lastClosed tells whether the try_recv after them observes
Disconnected (channel closed during the drain) or Empty (flush, break).
Returns the writer actions and the error returned early, if any. -/
def senderDrain : List FlowMessage → Bool → (List SenderAct × Option FlowError)
  | [], false => ([.flush], none)
  | [], true => ([], some .tryRecvDisconnected)
  | m :: ms, lastClosed =>
      let rec_ := senderDrain ms lastClosed
      (.write m.frame :: rec_.1, rec_.2)

/-- The outer recv loop of sender (connection_handler.rs lines 24-39) over
a burst schedule.  Returns the writer actions and the task's result. -/
def senderRun : List (FlowMessage × List FlowMessage) → Bool →
    (List SenderAct × Except FlowError Unit)
  | [], _ => ([], .ok ())
  | (m, ms) :: rest, closedDuringDrain =>
      let lastClosed := rest.isEmpty && closedDuringDrain
      let drained := senderDrain ms lastClosed
      match drained.2 with
      | some e => (.write m.frame :: drained.1, .error e)
      | none =>
          let tail := senderRun rest closedDuringDrain
          (.write m.frame :: drained.1 ++ tail.1, tail.2)

/-- The frames written by a trace of sender actions, in order. -/
def writesOf : List SenderAct → List Frame
  | [] => []
  | .write f :: r => f :: writesOf r
  | .flush :: r => writesOf r

/-- The number of flushes in a trace of sender actions. -/
def flushCount : List SenderAct → Nat
  | [] => 0
  | .write _ :: r => flushCount r
  | .flush :: r => 1 + flushCount r

/-- All frames of a burst schedule in arrival (enqueue) order. -/
def burstFrames (bursts : List (FlowMessage × List FlowMessage)) : List Frame :=
  (bursts.map (fun p => p.1.frame :: p.2.map (fun m => m.frame))).flatten

/-- The contents of the writer's internal buffer after a trace of sender
actions: write_frame appends to the buffer, flush commits it to the
stream and empties it.  Frames still here when the task exits were
written but never flushed. -/
def unflushedAfter (acts : List SenderAct) : List Frame :=
  acts.foldl (fun buf a => match a with | .write f => buf ++ [f] | .flush => []) []

lemma senderDrain_writes (ms : List FlowMessage) (b : Bool) :
    writesOf (senderDrain ms b).1 = ms.map (fun m => m.frame) := by
  induction ms with
  | nil => cases b <;> simp [senderDrain, writesOf]
  | cons m ms ih => simp [senderDrain, writesOf, ih]

lemma senderDrain_flushes (ms : List FlowMessage) (b : Bool) :
    flushCount (senderDrain ms b).1 = if b then 0 else 1 := by
  induction ms with
  | nil => cases b <;> simp [senderDrain, flushCount]
  | cons m ms ih => simpa [senderDrain, flushCount] using ih

lemma senderDrain_err (ms : List FlowMessage) (b : Bool) :
    (senderDrain ms b).2 = if b then some FlowError.tryRecvDisconnected else none := by
  induction ms with
  | nil => cases b <;> simp [senderDrain]
  | cons m ms ih => simpa [senderDrain] using ih

/-!
Receive loops.  Each loop is embedded as a function over the list of
successive read_frame results it observes: ok (some f) is a frame, ok none
is clean EOF, error e is a fatal codec error.  The per-frame dispatch is
spawned onto its own task; the loop never consults the spawned task's
result, so each run returns the list of spawned task outcomes together
with the loop's own exit status.  The concurrency limiter (its poll_ready
never fails for these services) and tokio spawn are abstracted away;
request ordering is the read order, as in the source.
-/

/-- One result of ConnectionReader read_frame. -/
abbrev ReadResult := Except FlowError (Option Frame)

/-- The resolved value of a FlowFuture (the future type of the router and
of ConnectionHandler Service call). -/
abbrev FlowFutureVal := Except FlowError (Option FlowMessage)

/-- Outcome of one task spawned by the connection_handler.rs receiver
(lines 70-80): the task awaits the router future and unwraps it, so an
error panics the task (the panic message carries the error); ok some
response forwards the response through svc call; ok none does nothing. -/
inductive TaskOutcome
  | forwarded (m : FlowMessage)
  | fireAndForget
  | panicked (e : FlowError)
  deriving DecidableEq, Repr

/-- The body of the task spawned per request by the connection_handler.rs
receiver, as a function of the router's resolved future. -/
def routeTaskOutcome (route : FlowMessage → FlowFutureVal)
    (request : FlowMessage) : TaskOutcome :=
  match route request with
  | .ok (some response) => .forwarded response
  | .ok none => .fireAndForget
  | .error e => .panicked e

/-- receiver from connection_handler.rs lines 43-83, over a schedule of
read results, parametrised by the peer address and by the resolved router
future (RequestRouter is declared in src/ only by reference; its call is
abstracted as the route argument).  Each frame is turned into a
FlowMessage with dst Local None and src Remote peer; failure of
FlowMessage construction is propagated by the question-mark operator and
ends the loop with that error. -/
def receiverRun (peer : SocketAddr) (route : FlowMessage → FlowFutureVal) :
    List ReadResult → (List TaskOutcome × Except FlowError Unit)
  | [] => ([], .ok ())
  | .error e :: _ => ([], .error e)
  | .ok none :: _ => ([], .ok ())
  | .ok (some frame) :: rest =>
    match FlowMessage.new ⟨Peer.local none, Peer.remote peer⟩ frame with
    | .error e => ([], .error e)
    | .ok request =>
      let outcome := routeTaskOutcome route request
      let tail := receiverRun peer route rest
      (outcome :: tail.1, tail.2)

/-- Outcome of one task spawned by hello_tower (services/mod.rs lines
175-182): it awaits the dispatched handle_req future and unwraps it, so an
error panics the task; ok some response sends the response frame on the
outbound channel; ok none does nothing. -/
inductive TowerOutcome
  | sent (f : Frame)
  | fireAndForget
  | panicked (e : FlowError)
  deriving DecidableEq, Repr

/-- The body of the task spawned per request by hello_tower, as a function
of the dispatched handle_req result. -/
def towerTaskOutcome (pingHandle networkTestHandle : Handler)
    (request : FlowRequest) : TowerOutcome :=
  match handle_req pingHandle networkTestHandle request with
  | .ok (some response) => .sent response.frame
  | .ok none => .fireAndForget
  | .error e => .panicked e

/-- The read loop of hello_tower, services/mod.rs lines 150-185: read a
frame; on none exit cleanly; if the payload is shorter than 8 bytes, log
and continue; otherwise peek the file identifier, look it up, and dispatch
a FlowRequest onto a spawned task. -/
def helloTowerRun (pingHandle networkTestHandle : Handler) :
    List ReadResult → (List TowerOutcome × Except FlowError Unit)
  | [] => ([], .ok ())
  | .error e :: _ => ([], .error e)
  | .ok none :: _ => ([], .ok ())
  | .ok (some frame) :: rest =>
    if frame.payload.length < 8 then
      helloTowerRun pingHandle networkTestHandle rest
    else
      match frame.peek_file_identifier with
      | .error e => ([], .error e)
      | .ok fid =>
        match from_id fid with
        | .error e => ([], .error e)
        | .ok pfi =>
          let outcome := towerTaskOutcome pingHandle networkTestHandle ⟨frame, pfi⟩
          let tail := helloTowerRun pingHandle networkTestHandle rest
          (outcome :: tail.1, tail.2)

/-- Outcome of one task spawned by handle_connection (services/mod.rs
lines 222-228): the task runs handle_frame and matches its result,
printing the error of an Err (the task ends, no reply is sent); ok is
silent.  handle_frame (lines 84-99) sends the response frame when
handle_req resolves to some. -/
inductive ConnOutcome
  | sent (f : Frame)
  | fireAndForget
  | logged (e : FlowError)
  deriving DecidableEq, Repr

/-- The body of the task spawned per request by handle_connection, as a
function of the handle_req result (handle_frame plus the logging match of
lines 223-226; the outbound channel send is modelled as succeeding, the
sender being alive for the duration of the run). -/
def connTaskOutcome (pingHandle networkTestHandle : Handler)
    (request : FlowRequest) : ConnOutcome :=
  match handle_req pingHandle networkTestHandle request with
  | .ok (some response) => .sent response.frame
  | .ok none => .fireAndForget
  | .error e => .logged e

/-- The read loop of handle_connection, services/mod.rs lines 205-231:
identical frame handling to hello_tower (short frames are logged and
skipped), with the per-request limiter acquire/forget and add_permits
abstracted away. -/
def handleConnectionRun (pingHandle networkTestHandle : Handler) :
    List ReadResult → (List ConnOutcome × Except FlowError Unit)
  | [] => ([], .ok ())
  | .error e :: _ => ([], .error e)
  | .ok none :: _ => ([], .ok ())
  | .ok (some frame) :: rest =>
    if frame.payload.length < 8 then
      handleConnectionRun pingHandle networkTestHandle rest
    else
      match frame.peek_file_identifier with
      | .error e => ([], .error e)
      | .ok fid =>
        match from_id fid with
        | .error e => ([], .error e)
        | .ok pfi =>
          let outcome := connTaskOutcome pingHandle networkTestHandle ⟨frame, pfi⟩
          let tail := handleConnectionRun pingHandle networkTestHandle rest
          (outcome :: tail.1, tail.2)

/-!
Connection admission.  connection_handler.rs: MAX_CONNECTIONS = 250
(line 16).  new_listener (lines 191-200) creates a semaphore of capacity
MAX_CONNECTIONS for its accept loop (listener, lines 177-189), which
acquires one owned permit per accepted connection; the permit is dropped
when the spawned receiver exits (spawn_receiver, lines 85-104).
new_outgoing_connection (lines 167-175) creates a FRESH semaphore of
capacity 1 on every call and acquires its permit from that fresh
semaphore, so outgoing connections never touch the listener's semaphore.
The tokio semaphore is modelled by capacity and available permits;
acquire is enabled only when a permit is available (in tokio it would
block otherwise).
-/

/-- MAX_CONNECTIONS from connection_handler.rs line 16 (the same constant
appears in services/mod.rs line 35 and flow/mod.rs line 27). -/
def MAX_CONNECTIONS : Nat := 250

/-- Counting model of tokio sync Semaphore. -/
structure Semaphore where
  capacity : Nat
  available : Nat
  deriving DecidableEq, Repr

/-- Semaphore new n: all n permits available. -/
def Semaphore.new (n : Nat) : Semaphore := ⟨n, n⟩

/-- acquire_owned: enabled only when a permit is available. -/
def Semaphore.acquire (s : Semaphore) : Option Semaphore :=
  if s.available = 0 then none else some ⟨s.capacity, s.available - 1⟩

/-- Dropping an owned permit returns it to the semaphore. -/
def Semaphore.addPermit (s : Semaphore) : Semaphore :=
  ⟨s.capacity, s.available + 1⟩

/-- Process state for connection admission: the listener's semaphore and
the live connection counts by construction path. -/
structure NetState where
  listenerSem : Semaphore
  liveInbound : Nat
  liveOutbound : Nat
  deriving DecidableEq, Repr

/-- Admission events: a listener accept, an outgoing connect, and the two
teardown events (the receiver task exiting drops the permit it owns). -/
inductive NetStep
  | accept
  | outgoing
  | closeInbound
  | closeOutbound
  deriving DecidableEq, Repr

/-- Initial state: one listener just created by new_listener, no live
connections. -/
def netInit : NetState := ⟨Semaphore.new MAX_CONNECTIONS, 0, 0⟩

/-- One admission transition.  accept: the listener loop acquires an owned
permit from its semaphore, then constructs a ConnectionHandler.  outgoing:
new_outgoing_connection creates Semaphore new 1 and acquires from that
fresh semaphore (always enabled), leaving the listener semaphore
untouched.  closeInbound: an accepted connection's receiver exits and
drops its listener permit.  closeOutbound: an outgoing connection's
receiver exits and drops its fresh-semaphore permit. -/
def netStep : NetStep → NetState → Option NetState
  | .accept, s =>
    match s.listenerSem.acquire with
    | some sem => some { s with listenerSem := sem, liveInbound := s.liveInbound + 1 }
    | none => none
  | .outgoing, s =>
    match (Semaphore.new 1).acquire with
    | some _ => some { s with liveOutbound := s.liveOutbound + 1 }
    | none => none
  | .closeInbound, s =>
    if s.liveInbound = 0 then none
    else some { s with listenerSem := s.listenerSem.addPermit,
                       liveInbound := s.liveInbound - 1 }
  | .closeOutbound, s =>
    if s.liveOutbound = 0 then none
    else some { s with liveOutbound := s.liveOutbound - 1 }

/-- The total number of live connections. -/
def liveConnections (s : NetState) : Nat := s.liveInbound + s.liveOutbound

/-- Run a sequence of admission events. -/
def netRun : List NetStep → NetState → Option NetState
  | [], s => some s
  | a :: rest, s =>
    match netStep a s with
    | some s2 => netRun rest s2
    | none => none

/-- States reachable from the initial admission state. -/
inductive NetReachable : NetState → Prop
  | init : NetReachable netInit
  | step (a : NetStep) (s s2 : NetState) :
      NetReachable s → netStep a s = some s2 → NetReachable s2

lemma netRun_reachable (tr : List NetStep) (s s2 : NetState)
    (h : NetReachable s) (hr : netRun tr s = some s2) : NetReachable s2 := by
  induction tr generalizing s with
  | nil =>
    simp only [netRun, Option.some.injEq] at hr
    exact hr ▸ h
  | cons a rest ih =>
    simp only [netRun] at hr
    cases hs : netStep a s with
    | none => simp [hs] at hr
    | some s3 =>
      rw [hs] at hr
      exact ih s3 (NetReachable.step a s s3 h hs) hr

lemma net_inbound_invariant (s : NetState) (h : NetReachable s) :
    s.listenerSem.available + s.liveInbound = MAX_CONNECTIONS := by
  induction h with
  | init => simp [netInit, Semaphore.new]
  | step a s s2 _ hstep ih =>
    cases a with
    | accept =>
      simp only [netStep, Semaphore.acquire] at hstep
      by_cases hz : s.listenerSem.available = 0
      · simp [hz] at hstep
      · simp [hz] at hstep
        cases hstep
        simp only []
        omega
    | outgoing =>
      simp only [netStep, Semaphore.new, Semaphore.acquire] at hstep
      cases hstep
      simpa using ih
    | closeInbound =>
      simp only [netStep] at hstep
      by_cases hz : s.liveInbound = 0
      · simp [hz] at hstep
      · simp [hz] at hstep
        cases hstep
        simp only [Semaphore.addPermit]
        omega
    | closeOutbound =>
      simp only [netStep] at hstep
      by_cases hz : s.liveOutbound = 0
      · simp [hz] at hstep
      · simp [hz] at hstep
        cases hstep
        simpa using ih

/-!
Handshake, connection_handler.rs ConnectionHandler new (lines 139-165).
connection new (flow/connection.rs, absent from src/) performs the
ConnectPacket exchange and returns the reader, the writer and the peer's
ConnectPacket.  ConnectionHandler new then carries the comment
"TODO: Check protocol compatibility", prints the packet, and
unconditionally spawns the sender and receiver and returns Ok: no
comparison of protocol version or feature flags is performed anywhere in
src/.
-/

/-- Modelled from the spec: connection.rs is absent from src/.  The
ConnectPacket carries a protocol version, feature flags and the
originating peer's canonical address. -/
structure ConnectPacket where
  protocolVersion : Nat
  flags : Nat
  canonicalAddr : SocketAddr
  deriving DecidableEq, Repr

/-- Modelled from the spec: the compatibility relation the handshake is
supposed to enforce; feature flags and protocol version are compared. -/
def ConnectPacket.compatibleWith (a b : ConnectPacket) : Bool :=
  decide (a.protocolVersion = b.protocolVersion) && decide (a.flags = b.flags)

/-- The local ConnectPacket of this process (concrete model values; the
wire encoding is external to the embedded logic). -/
def LOCAL_CONNECT_PACKET : ConnectPacket := ⟨100, 0, 0⟩

/-- Result of ConnectionHandler new visible to a caller: the peer address
and the peer's ConnectPacket it accepted. -/
structure ConnectionHandlerModel where
  peer : SocketAddr
  peerPacket : ConnectPacket
  deriving DecidableEq, Repr

/-- ConnectionHandler new, connection_handler.rs lines 139-165, as a
function of the handshake outcome delivered by connection new (an error,
or the peer's ConnectPacket).  After a successful exchange the packet is
printed and the handler is returned; the protocol compatibility check is
a TODO in the source, so the packet's contents are never inspected. -/
def connectionHandlerNew (peer : SocketAddr)
    (handshake : Except FlowError ConnectPacket) :
    Except FlowError ConnectionHandlerModel :=
  match handshake with
  | .error e => .error e
  | .ok packet => .ok ⟨peer, packet⟩

/-!
Ping handling in flow/mod.rs hello (lines 53-94): the per-frame dispatch
of the accept loop matches on the token's well-known classification.  The
PingPacket arm parses the payload (root_as_fake_root, a flatbuffers
function external to src/, with the question-mark operator on failure),
extracts the reply promise UID (first, second), and writes back a frame
whose token is that UID and whose payload is Vec new (empty); the
flatbuffer built into the local builder is only printed, never sent.  All
other arms only print.
-/

/-- The per-frame dispatch of flow/mod.rs hello, parametrised over the
payload parse (the flatbuffers schema code is external to src/): returns
the frames written for this inbound frame, or the propagated parse
error. -/
def helloFrameStep (extract : List Nat → Except FlowError (Nat × Nat))
    (frame : Frame) : Except FlowError (List Frame) :=
  match frame.token.get_well_known_endpoint with
  | some .PingPacket =>
    match extract frame.payload with
    | .error e => .error e
    | .ok (u1, u2) => .ok [⟨⟨u1, u2⟩, []⟩]
  | some .NetworkTest => .ok []
  | some .EndpointNotFound => .ok []
  | some .AuthTenant => .ok []
  | some .UnauthorizedEndpoint => .ok []
  | some .ReservedForTesting => .ok []
  | none => .ok []

/-!
ConnectionHandler as a tower Service, connection_handler.rs lines
201-224.  handle_req validates the message, sends it on the outbound
channel (response_tx; the send fails exactly when the sender task has
terminated and the channel receiver is dropped), and returns Ok None.
Service call matches the handle_req result: Ok Some fut yields fut,
Ok None yields a future resolving to Ok None, Err e yields a future
resolving to Err e.
-/

/-- The response_tx send of connection_handler.rs line 203: an unbounded
send succeeds iff the receiving half (owned by the sender task) is still
alive. -/
def sendResponseTx (senderAlive : Bool) (_m : FlowMessage) : Except FlowError Unit :=
  if senderAlive then .ok () else .error .channelClosed

/-- ConnectionHandler handle_req, connection_handler.rs lines 201-205. -/
def ConnectionHandler.handle_req (senderAlive : Bool) (request : FlowMessage) :
    Except FlowError (Option FlowFutureVal) :=
  match request.validate with
  | .error e => .error e
  | .ok () =>
    match sendResponseTx senderAlive request with
    | .error e => .error e
    | .ok () => .ok none

/-- Service call for the ConnectionHandler, connection_handler.rs lines
217-223, with the returned future represented by its resolved value. -/
def ConnectionHandler.call (senderAlive : Bool) (req : FlowMessage) : FlowFutureVal :=
  match ConnectionHandler.handle_req senderAlive req with
  | .ok (some fut) => fut
  | .ok none => .ok none
  | .error e => .error e

/-!
Concrete inputs used by counterexamples and witnesses.
-/

/-- A request whose token classifies as AuthTenant, a well-known variant
with no registered handler, with a minimal legal payload. -/
def c1Request : FlowRequest := ⟨⟨⟨wellKnownMarker, 2⟩, [0, 0, 0, 0, 0, 0, 0, 0]⟩, ⟨0⟩⟩

/-- A request whose token classifies as UnauthorizedEndpoint, a well-known
variant with no registered handler. -/
def c1bRequest : FlowRequest := ⟨⟨⟨wellKnownMarker, 3⟩, [0, 0, 0, 0, 0, 0, 0, 0]⟩, ⟨0⟩⟩

/-- A request with an ephemeral token (outside the reserved range). -/
def c2Request : FlowRequest := ⟨⟨⟨5, 6⟩, [1, 2, 3, 4, 5, 6, 7, 8]⟩, ⟨0⟩⟩

/-- Another request with an ephemeral token. -/
def c2bRequest : FlowRequest := ⟨⟨⟨7, 8⟩, [1, 2, 3, 4, 5, 6, 7, 8]⟩, ⟨0⟩⟩

/-- A message sitting in the outbound queue when the channel closes. -/
def c5Message : FlowMessage :=
  ⟨⟨Peer.local none, Peer.remote 0⟩, ⟨⟨1, 2⟩, [0, 0, 0, 0, 0, 0, 0, 0]⟩, 0⟩

/-- A frame with a 3-byte payload, shorter than the 8-byte minimum. -/
def shortFrame : Frame := ⟨⟨9, 9⟩, [1, 2, 3]⟩

/-- A well-formed frame with a minimal legal payload. -/
def validFrame : Frame := ⟨⟨wellKnownMarker, 2⟩, [0, 0, 0, 0, 0, 0, 0, 0]⟩

/-- A router whose future always resolves to Ok None. -/
def routeNone : FlowMessage → FlowFutureVal := fun _ => .ok none

/-- A router whose future always resolves to an error. -/
def routeErr : FlowMessage → FlowFutureVal := fun _ => .error (.handler 7)

/-- A handler that always fails. -/
def errHandler : Handler := fun _ => .error (.handler 8)

/-- A FlowMessage built from validFrame as the receiver would build it. -/
def c6Message : FlowMessage := ⟨⟨Peer.local none, Peer.remote 0⟩, validFrame, 0⟩

/-- A request whose token classifies as PingPacket, so that handle_req
dispatches it to the ping handler. -/
def c6Request : FlowRequest := ⟨⟨⟨wellKnownMarker, 1⟩, [0, 0, 0, 0, 0, 0, 0, 0]⟩, ⟨0⟩⟩

/-- A message to enqueue through the ConnectionHandler service. -/
def c10Message : FlowMessage :=
  ⟨⟨Peer.local none, Peer.remote 3⟩, ⟨⟨4, 5⟩, [0, 0, 0, 0, 0, 0, 0, 0]⟩, 0⟩

/-- An admission trace: fill the listener to capacity, then open one
outgoing connection. -/
def overCapTrace : List NetStep := List.replicate MAX_CONNECTIONS .accept ++ [.outgoing]

/-- The state reached by overCapTrace: the listener semaphore exhausted,
250 inbound and 1 outbound live connections. -/
def overCapState : NetState := ⟨⟨MAX_CONNECTIONS, 0⟩, MAX_CONNECTIONS, 1⟩

/-- A peer ConnectPacket whose protocol version differs from the local
one. -/
def mismatchPacket : ConnectPacket := ⟨101, 0, 1⟩

/-- A payload parse that extracts the reply promise UID of spec scenario
S1. -/
def pingExtract : List Nat → Except FlowError (Nat × Nat) :=
  fun _ => .ok (0x0123456789abcdef, 0xfedcba9876543210)

/-- A frame carrying the PingPacket well-known token. -/
def pingFrame : Frame := ⟨⟨wellKnownMarker, 1⟩, [1, 1, 1, 1, 1, 1, 1, 1]⟩

/-!
Helper lemmas.
-/

lemma senderRun_cons_mid (m : FlowMessage) (ms : List FlowMessage)
    (rest : List (FlowMessage × List FlowMessage)) (closed : Bool)
    (h : (rest.isEmpty && closed) = false) :
    senderRun ((m, ms) :: rest) closed =
      (SenderAct.write m.frame :: ((senderDrain ms false).1 ++ (senderRun rest closed).1),
        (senderRun rest closed).2) := by
  simp [senderRun, h, senderDrain_err]

lemma writesOf_append (a b : List SenderAct) :
    writesOf (a ++ b) = writesOf a ++ writesOf b := by
  induction a with
  | nil => rfl
  | cons x r ih => cases x <;> simp [writesOf, ih]

lemma flushCount_append (a b : List SenderAct) :
    flushCount (a ++ b) = flushCount a + flushCount b := by
  induction a with
  | nil => simp [flushCount]
  | cons x r ih => cases x <;> simp [flushCount, ih, Nat.add_assoc]

lemma peek_file_identifier_short (f : Frame) (h : f.payload.length < 8) :
    f.peek_file_identifier = .error .frameTooShort := by
  obtain ⟨tok, payload⟩ := f
  simp only [Frame.peek_file_identifier]
  rcases payload with _ | ⟨b0, _ | ⟨b1, _ | ⟨b2, _ | ⟨b3, rest⟩⟩⟩⟩ <;> simp_all
  omega

lemma receiverRun_snd_route (peer : SocketAddr)
    (route1 route2 : FlowMessage → FlowFutureVal) (reads : List ReadResult) :
    (receiverRun peer route1 reads).2 = (receiverRun peer route2 reads).2 := by
  induction reads with
  | nil => rfl
  | cons r rest ih =>
    cases r with
    | error e => rfl
    | ok of =>
      cases of with
      | none => rfl
      | some frame =>
        simp only [receiverRun]
        cases FlowMessage.new ⟨Peer.local none, Peer.remote peer⟩ frame with
        | error e => rfl
        | ok request => simpa using ih

lemma handleConnectionRun_snd_handlers (hP hN hP2 hN2 : Handler)
    (reads : List ReadResult) :
    (handleConnectionRun hP hN reads).2 = (handleConnectionRun hP2 hN2 reads).2 := by
  induction reads with
  | nil => rfl
  | cons r rest ih =>
    cases r with
    | error e => rfl
    | ok of =>
      cases of with
      | none => rfl
      | some frame =>
        simp only [handleConnectionRun]
        by_cases hlen : frame.payload.length < 8
        · simp only [if_pos hlen]
          exact ih
        · simp only [if_neg hlen]
          cases frame.peek_file_identifier with
          | error e => rfl
          | ok fid => simpa [from_id] using ih

/-!
Claim theorems.
-/

/-- Claim C1, counterexample.  A request whose token classifies as
AuthTenant, a well-known variant with no registered handler, resolves to
Ok None: no reply at all is produced, in particular no EndpointNotFound
reply.  The AuthTenant arm of handle_req never invokes the handler
parameters, so instantiating them with trivialHandler loses nothing. -/
theorem unhandled_wellknown_no_epnf_reply :
    handle_req trivialHandler trivialHandler c1Request = .ok none ∧
    isEndpointNotFoundReply (handle_req trivialHandler trivialHandler c1Request) = false :=
  ⟨rfl, rfl⟩

/-- Claim C1, amended: for every inbound request whose token classifies as
a well-known variant with no handler registered for it (any variant other
than PingPacket and ReservedForTesting) and which passes frame validation,
handle_req logs the unhandled request and resolves to Ok None; no
EndpointNotFound reply is synthesized. -/
theorem unhandled_wellknown_resolves_none
    (pingHandle networkTestHandle : Handler) (request : FlowRequest) (w : WLTOKEN)
    (hclass : request.frame.token.get_well_known_endpoint = some w)
    (hping : w ≠ .PingPacket) (hnet : w ≠ .ReservedForTesting)
    (hvalid : request.frame.validate = .ok ()) :
    handle_req pingHandle networkTestHandle request = .ok none := by
  unfold handle_req
  rw [hvalid, hclass]
  cases w with
  | PingPacket => exact absurd rfl hping
  | ReservedForTesting => exact absurd rfl hnet
  | AuthTenant => rfl
  | UnauthorizedEndpoint => rfl
  | NetworkTest => rfl
  | EndpointNotFound => rfl

/-- Claim C1, witness: the amended theorem applied to a concrete request
whose token classifies as UnauthorizedEndpoint. -/
theorem unhandled_wellknown_resolves_none_witness :
    handle_req trivialHandler trivialHandler c1bRequest = .ok none :=
  unhandled_wellknown_resolves_none trivialHandler trivialHandler c1bRequest
    .UnauthorizedEndpoint (by rfl) (by decide) (by decide) (by rfl)

/-- Claim C2, counterexample.  A request with an ephemeral token resolves
to Ok None after logging: there is no pending-reply table to consult in
this code, and no EndpointNotFound reply is synthesized for the absent
entry. -/
theorem ephemeral_token_no_epnf_reply :
    handle_req trivialHandler trivialHandler c2Request = .ok none ∧
    isEndpointNotFoundReply (handle_req trivialHandler trivialHandler c2Request) = false :=
  ⟨rfl, rfl⟩

/-- Claim C2, amended: for every inbound request whose token is ephemeral
(not well-known) and which passes frame validation, handle_req logs that
the message is not destined for a well-known endpoint and resolves to
Ok None; no pending-reply table is consulted and no EndpointNotFound reply
is synthesized. -/
theorem ephemeral_token_resolves_none
    (pingHandle networkTestHandle : Handler) (request : FlowRequest)
    (hclass : request.frame.token.get_well_known_endpoint = none)
    (hvalid : request.frame.validate = .ok ()) :
    handle_req pingHandle networkTestHandle request = .ok none := by
  unfold handle_req
  rw [hvalid, hclass]

/-- Claim C2, witness: the amended theorem applied to a concrete ephemeral
request. -/
theorem ephemeral_token_resolves_none_witness :
    handle_req trivialHandler trivialHandler c2bRequest = .ok none :=
  ephemeral_token_resolves_none trivialHandler trivialHandler c2bRequest
    (by rfl) (by rfl)

/-- Claim C4, counterexample.  On the ConnectionHandler receiver path a
frame with a 3-byte payload is not discarded: FlowMessage construction
fails and the receiver exits with the frame-too-short error, so the
connection is torn down and the subsequent valid frame on the same
connection is never processed (the outcome list is empty). -/
theorem short_frame_fatal_on_receiver_path :
    receiverRun 0 routeNone
        [Except.ok (some shortFrame), Except.ok (some validFrame), Except.ok none] =
      ([], .error .frameTooShort) :=
  rfl

/-- Claim C4, amended: on the hello_tower and handle_connection receive
paths, a received frame whose payload is shorter than 8 bytes is logged
and discarded without tearing down the connection, and the rest of the
schedule is processed exactly as if the short frame had not arrived; on
the ConnectionHandler receiver path, such a frame makes FlowMessage
construction fail and the receiver exits with the frame-too-short error,
tearing down the connection. -/
theorem short_frame_skipped_or_fatal
    (pingHandle networkTestHandle : Handler) (frame : Frame)
    (rest : List ReadResult) (peer : SocketAddr)
    (route : FlowMessage → FlowFutureVal)
    (h : frame.payload.length < 8) :
    helloTowerRun pingHandle networkTestHandle (.ok (some frame) :: rest) =
      helloTowerRun pingHandle networkTestHandle rest ∧
    handleConnectionRun pingHandle networkTestHandle (.ok (some frame) :: rest) =
      handleConnectionRun pingHandle networkTestHandle rest ∧
    receiverRun peer route (.ok (some frame) :: rest) = ([], .error .frameTooShort) := by
  refine ⟨?_, ?_, ?_⟩
  · simp [helloTowerRun, h]
  · simp [handleConnectionRun, h]
  · simp [receiverRun, FlowMessage.new, peek_file_identifier_short frame h]

/-- Claim C4, witness: the amended theorem applied to the concrete 3-byte
frame followed by an empty schedule. -/
theorem short_frame_skipped_or_fatal_witness :
    helloTowerRun trivialHandler trivialHandler [Except.ok (some shortFrame)] =
      helloTowerRun trivialHandler trivialHandler [] ∧
    handleConnectionRun trivialHandler trivialHandler [Except.ok (some shortFrame)] =
      handleConnectionRun trivialHandler trivialHandler [] ∧
    receiverRun 0 routeNone [Except.ok (some shortFrame)] = ([], .error .frameTooShort) :=
  short_frame_skipped_or_fatal trivialHandler trivialHandler shortFrame [] 0 routeNone
    (by decide)

/-- Claim C5: evaluation at the failing input.  With one message still
queued when the channel closes, the sender writes the frame, then try_recv
reports Disconnected and the task returns Err: the frame is left in the
writer's buffer, no flush is ever issued, so the sender exits leaving a
written-but-unflushed frame, contrary to the clean-shutdown drain-and-
flush the specification describes. -/
theorem sender_exits_with_unflushed_frame :
    (senderRun [(c5Message, [])] true).2 = .error .tryRecvDisconnected ∧
    unflushedAfter (senderRun [(c5Message, [])] true).1 = [c5Message.frame] ∧
    flushCount (senderRun [(c5Message, [])] true).1 = 0 :=
  ⟨rfl, rfl, rfl⟩

/-- Claim C8: every message the sender observes on the outbound channel is
written exactly once and in enqueue (arrival) order, and a flush is issued
exactly at each moment the channel is observed momentarily empty (one per
burst, except that no flush follows the final burst when the channel is
closed during its drain). -/
theorem sender_fifo_exactly_once_flush_on_empty
    (bursts : List (FlowMessage × List FlowMessage)) (closed : Bool) :
    writesOf (senderRun bursts closed).1 = burstFrames bursts ∧
    flushCount (senderRun bursts closed).1 =
      bursts.length - (if closed && !bursts.isEmpty then 1 else 0) := by
  induction bursts with
  | nil => simp [senderRun, writesOf, flushCount, burstFrames]
  | cons p rest ih =>
    obtain ⟨m, ms⟩ := p
    cases rest with
    | nil =>
      cases closed with
      | false =>
        refine ⟨?_, ?_⟩
        · simp [senderRun, senderDrain_err, writesOf, writesOf_append,
                senderDrain_writes, burstFrames]
        · simp [senderRun, senderDrain_err, flushCount, flushCount_append,
                senderDrain_flushes]
      | true =>
        refine ⟨?_, ?_⟩
        · simp [senderRun, senderDrain_err, writesOf, senderDrain_writes, burstFrames]
        · simp [senderRun, senderDrain_err, flushCount, senderDrain_flushes]
    | cons r rs =>
      obtain ⟨ih1, ih2⟩ := ih
      have hne : (((r :: rs).isEmpty) && closed) = false := by simp
      refine ⟨?_, ?_⟩
      · rw [senderRun_cons_mid m ms (r :: rs) closed hne]
        simp [writesOf, writesOf_append, senderDrain_writes, burstFrames, ih1]
      · rw [senderRun_cons_mid m ms (r :: rs) closed hne]
        simp only [flushCount, flushCount_append, senderDrain_flushes, ih2]
        cases closed <;> simp <;> omega

set_option maxRecDepth 40000 in
/-- Claim C3, counterexample.  Constructions do not all draw on one
process-wide semaphore: after 250 accepted connections exhaust the
listener's semaphore, new_outgoing_connection still succeeds because it
acquires from a fresh capacity-1 semaphore it creates itself, reaching a
state with 251 live connections, above MAX_CONNECTIONS. -/
theorem outgoing_exceeds_max_connections :
    netRun overCapTrace netInit = some overCapState ∧
    MAX_CONNECTIONS < liveConnections overCapState :=
  ⟨by rfl, by decide⟩

set_option maxRecDepth 40000 in
/-- Claim C3, amended: constructions from a listener accept acquire a
permit from that listener's semaphore of capacity MAX_CONNECTIONS = 250,
so the number of live accepted connections never exceeds MAX_CONNECTIONS;
constructions from new_outgoing_connection instead acquire from a fresh
capacity-1 semaphore created on each call, so they bypass the cap and the
total number of live connections can exceed MAX_CONNECTIONS.

The first conjunct is the surviving bound; the second shows the cap as
claimed is violated in a reachable state. -/
theorem connection_cap_inbound_only :
    (∀ s : NetState, NetReachable s → s.liveInbound ≤ MAX_CONNECTIONS) ∧
    (∃ s : NetState, NetReachable s ∧ MAX_CONNECTIONS < liveConnections s) := by
  constructor
  · intro s h
    have hinv := net_inbound_invariant s h
    omega
  · exact ⟨overCapState,
      netRun_reachable overCapTrace netInit overCapState NetReachable.init (by rfl),
      by decide⟩

/-- Claim C3, witness: the amended bound applied at the concrete initial
state, whose reachability is discharged by the base constructor. -/
theorem connection_cap_inbound_only_witness :
    netInit.liveInbound ≤ MAX_CONNECTIONS :=
  connection_cap_inbound_only.1 netInit NetReachable.init

/-- Claim C6: when a dispatched router or handler future resolves with an
error, the spawned task for that request ends carrying the error (on the
ConnectionHandler receiver path the unwrap panics with the error, which
the runtime reports; on the handle_connection path the error is printed)
and no reply is produced for it, while the read loop's exit status is
entirely independent of handler outcomes: the connection is only torn
down by errors arising from reading or validating frames. -/
theorem handler_error_nonfatal (peer : SocketAddr)
    (route : FlowMessage → FlowFutureVal) (reads : List ReadResult)
    (pingHandle networkTestHandle pingHandle2 networkTestHandle2 : Handler)
    (request : FlowMessage) (e : FlowError) (creq : FlowRequest) (e2 : FlowError)
    (h1 : route request = .error e)
    (h2 : handle_req pingHandle networkTestHandle creq = .error e2) :
    routeTaskOutcome route request = .panicked e ∧
    (receiverRun peer route reads).2 = (receiverRun peer routeNone reads).2 ∧
    connTaskOutcome pingHandle networkTestHandle creq = .logged e2 ∧
    (handleConnectionRun pingHandle networkTestHandle reads).2 =
      (handleConnectionRun pingHandle2 networkTestHandle2 reads).2 :=
  ⟨by simp [routeTaskOutcome, h1],
   receiverRun_snd_route peer route routeNone reads,
   by simp [connTaskOutcome, h2],
   handleConnectionRun_snd_handlers pingHandle networkTestHandle
     pingHandle2 networkTestHandle2 reads⟩

/-- Claim C6, witness: instantiated with an always-failing router and an
always-failing ping handler over a one-frame schedule. -/
theorem handler_error_nonfatal_witness :
    routeTaskOutcome routeErr c6Message = .panicked (.handler 7) ∧
    (receiverRun 0 routeErr [Except.ok (some validFrame)]).2 =
      (receiverRun 0 routeNone [Except.ok (some validFrame)]).2 ∧
    connTaskOutcome errHandler errHandler c6Request = .logged (.handler 8) ∧
    (handleConnectionRun errHandler errHandler [Except.ok (some validFrame)]).2 =
      (handleConnectionRun trivialHandler trivialHandler [Except.ok (some validFrame)]).2 :=
  handler_error_nonfatal 0 routeErr [Except.ok (some validFrame)]
    errHandler errHandler trivialHandler trivialHandler
    c6Message (.handler 7) c6Request (.handler 8) (by rfl) (by rfl)

/-- Claim C7: evaluation at the failing input.  A peer ConnectPacket whose
protocol version differs from the local one is not compatible, yet
ConnectionHandler construction accepts it and returns Ok (the
compatibility check is a TODO in the source): no typed handshake-mismatch
error exists on this path, contrary to the handshake the specification
describes. -/
theorem handshake_mismatch_accepted :
    ConnectPacket.compatibleWith LOCAL_CONNECT_PACKET mismatchPacket = false ∧
    connectionHandlerNew 1 (.ok mismatchPacket) = .ok ⟨1, mismatchPacket⟩ :=
  ⟨by decide, rfl⟩

/-- Claim C9: when the per-frame dispatch of hello sees a frame whose
token classifies as PingPacket and whose payload parses to a reply-promise
UID (first, second), it writes back exactly one frame, whose token is that
UID and whose payload is empty. -/
theorem ping_reply_token_and_empty_payload
    (extract : List Nat → Except FlowError (Nat × Nat)) (frame : Frame)
    (u1 u2 : Nat)
    (hping : frame.token.get_well_known_endpoint = some .PingPacket)
    (hx : extract frame.payload = .ok (u1, u2)) :
    helloFrameStep extract frame = .ok [⟨⟨u1, u2⟩, []⟩] := by
  simp [helloFrameStep, hping, hx]

/-- Claim C9, witness: applied to a concrete PingPacket frame whose
payload extracts to the reply-promise UID of spec scenario S1. -/
theorem ping_reply_token_and_empty_payload_witness :
    helloFrameStep pingExtract pingFrame =
      .ok [⟨⟨0x0123456789abcdef, 0xfedcba9876543210⟩, []⟩] :=
  ping_reply_token_and_empty_payload pingExtract pingFrame
    0x0123456789abcdef 0xfedcba9876543210 (by rfl) (by rfl)

/-- Claim C10: the future returned by the ConnectionHandler service call
never resolves to Ok Some reply; it resolves to Ok None exactly when the
message validates and the sender task is still alive (the message is only
enqueued), and to an error otherwise. -/
theorem connection_handler_call_never_some_reply
    (senderAlive : Bool) (req : FlowMessage) :
    (∀ r : FlowMessage, ConnectionHandler.call senderAlive req ≠ .ok (some r)) ∧
    (req.validate = .ok () → senderAlive = true →
      ConnectionHandler.call senderAlive req = .ok none) ∧
    (¬ (req.validate = .ok () ∧ senderAlive = true) →
      ∃ e, ConnectionHandler.call senderAlive req = .error e) := by
  by_cases hlen : req.frame.payload.length < 8
  · have hv : req.validate = .error .frameTooShort := by
      simp [FlowMessage.validate, Frame.validate, hlen]
    refine ⟨?_, ?_, ?_⟩
    · intro r
      simp [ConnectionHandler.call, ConnectionHandler.handle_req, hv]
    · intro hok
      rw [hv] at hok
      exact absurd hok (by simp)
    · intro _
      exact ⟨.frameTooShort,
        by simp [ConnectionHandler.call, ConnectionHandler.handle_req, hv]⟩
  · have hv : req.validate = .ok () := by
      simp [FlowMessage.validate, Frame.validate, hlen]
    cases senderAlive with
    | true =>
      refine ⟨?_, ?_, ?_⟩
      · intro r
        simp [ConnectionHandler.call, ConnectionHandler.handle_req, hv, sendResponseTx]
      · intro _ _
        simp [ConnectionHandler.call, ConnectionHandler.handle_req, hv, sendResponseTx]
      · intro hcon
        exact absurd ⟨hv, rfl⟩ hcon
    | false =>
      refine ⟨?_, ?_, ?_⟩
      · intro r
        simp [ConnectionHandler.call, ConnectionHandler.handle_req, hv, sendResponseTx]
      · intro _ hfalse
        exact absurd hfalse (by simp)
      · intro _
        exact ⟨.channelClosed,
          by simp [ConnectionHandler.call, ConnectionHandler.handle_req, hv, sendResponseTx]⟩

/-- Claim C10, witness: applied at a concrete valid message with the
sender alive, yielding the Ok None (enqueued, no reply) resolution. -/
theorem connection_handler_call_never_some_reply_witness :
    ConnectionHandler.call true c10Message = .ok none :=
  (connection_handler_call_never_some_reply true c10Message).2.1 (by rfl) rfl

end Fdb
